import Mathlib

set_option autoImplicit false

/-
Shallow embedding of the core of the repository (src/src/actor/database.rs and
src/src/cistring.rs): the DatabaseActor's message handlers for authentication,
token invalidation, generic patch/delete dispatch and pagination-header
rendering, together with the case-insensitive string wrapper.

Database state is passed explicitly; a handler that mutates returns the new
state.  Parts of the repository that the handlers call but that are not under
src/ (User::get, verify_password, validate_token, validate_csrf_token, the
PatchMe capability, RequestContext::check_if_match, the Paginator anchor
queries) are modelled from the specification and marked as such.
-/

namespace Pointercrate

/-- Error kinds of the repository that the embedded core can produce.
`unauthorized` and `databaseConnectionError` are named directly in
database.rs; `notFound` and `preconditionFailed` are the kinds the spec's
error taxonomy (section 7) assigns to failed lookups and failed If-Match
checks. -/
inductive PointercrateError where
  | unauthorized
  | notFound
  | preconditionFailed
  | databaseConnectionError
  deriving DecidableEq, Repr

/-- Modelled from the spec: the Identity record (section 3) — the
authenticated principal, holding the stored password-verification data and
the rotatable salt from which token signing keys are derived.  The
password-hashing primitive is out of scope (section 1), so the stored hash
is modelled by the password value it verifies. -/
structure User where
  id : Nat
  username : String
  password : String
  salt : Nat
  displayName : Option String
  youtubeChannel : Option String
  deriving DecidableEq, Repr

/-- Wrapper around an authenticated user, as produced by successful
authentication (`Me(user)` in database.rs). -/
structure Me where
  user : User
  deriving DecidableEq, Repr

/-- Modelled from the spec: the Claims payload carried inside a bearer token
(section 3): minimally an identity id, an optional CSRF value and an
expiry. -/
structure Claims where
  id : Nat
  csrf : Option String
  exp : Nat
  deriving DecidableEq, Repr

/-- A bearer-token string, abstracted: either malformed (decoding fails) or a
signed claims payload.  The signature is the key the token was signed
with. -/
inductive AccessToken where
  | malformed
  | signed (claims : Claims) (sig : Nat)
  deriving DecidableEq, Repr

/-- Modelled from the spec: the token signing key is derived from the
identity's current salt (sections 3 and 4.5); the derivation is modelled as
an injective function of the salt. -/
def tokenKey (salt : Nat) : Nat :=
  salt

/-- Modelled from the spec: token issuance (outside this core, section 6)
signs a claims payload with the key derived from the identity's salt at
issuance time. -/
def sign_token (c : Claims) (salt : Nat) : AccessToken :=
  .signed c (tokenKey salt)

/-- Modelled from the spec: jsonwebtoken's decode-without-verification used
in phase 1 of token authentication — it recovers the claims payload without
inspecting the signature, failing only on malformed input. -/
def decode_unverified : AccessToken → Option Claims
  | .malformed => none
  | .signed c _ => some c

/-- The Authorization credential union from database.rs: `Basic` carries a
username and password, `Token` a bearer token and an optional CSRF value. -/
inductive Authorization where
  | basic (username : String) (password : String)
  | token (access_token : AccessToken) (csrf_token : Option String)
  deriving DecidableEq, Repr

/-- The two authentication modes selected by the phantom type parameter of
`Auth<T>` in database.rs. -/
inductive AuthType where
  | basic
  | token
  deriving DecidableEq, Repr

/-- The identity store: the relational table of users, modelled as a list of
records. -/
abbrev Database := List User

/-- Modelled from the spec: User::get keyed by username (section 4.5 "look
up Identity by username") — point lookup failing when no identity with that
username exists. -/
def getByName (db : Database) (username : String) : Except PointercrateError User :=
  match db.find? (fun u => u.username == username) with
  | some u => .ok u
  | none => .error .notFound

/-- Modelled from the spec: User::get keyed by id (section 4.5 phase 2 "look
up the Identity by that id"). -/
def getById (db : Database) (i : Nat) : Except PointercrateError User :=
  match db.find? (fun u => u.id == i) with
  | some u => .ok u
  | none => .error .notFound

/-- Modelled from the spec: User::verify_password — verify the supplied
password against the identity's stored password hash, failing Unauthorized
on mismatch and producing the identity on success (section 4.5). -/
def User.verify_password (u : User) (password : String) : Except PointercrateError User :=
  if u.password = password then .ok u else .error .unauthorized

/-- Modelled from the spec: User::validate_token — phase 2 of token
authentication: verify the token's signature and expiry against the key
derived from the identity's current salt, failing Unauthorized on any
mismatch (section 4.5). -/
def User.validate_token (u : User) (tok : AccessToken) (now : Nat) : Except PointercrateError User :=
  match tok with
  | .malformed => .error .unauthorized
  | .signed c sig =>
    if sig = tokenKey u.salt ∧ now < c.exp then .ok u else .error .unauthorized

/-- Modelled from the spec: User::validate_csrf_token — compare the supplied
CSRF value against the CSRF value embedded in the token's claims, failing
Unauthorized on mismatch (section 4.5). -/
def validate_csrf_token (tok : AccessToken) (supplied : String) : Except PointercrateError Unit :=
  match tok with
  | .malformed => .error .unauthorized
  | .signed c _ => if c.csrf = some supplied then .ok () else .error .unauthorized

/-- A pooled connection as the handlers observe it: either plain or
audit-tagged with the id of the user writes will be attributed to
(DatabaseActor::connection and DatabaseActor::audited_connection). -/
inductive Conn where
  | plain
  | audited (userId : Nat)
  deriving DecidableEq, Repr

/-- The RequestData carried by every message: Internal (system-initiated, no
identity) or External with an optional authenticated user; External requests
may carry an If-Match precondition token. -/
inductive RequestData where
  | internal
  | external (user : Option User) (ifMatch : Option Nat)
  deriving DecidableEq, Repr

/-- DatabaseActor::connection_for (database.rs lines 78-88): an audited
connection exactly when the request data is External and carries an
authenticated user, otherwise a plain connection. -/
def connection_for (data : RequestData) : Conn :=
  match data with
  | .external (some u) _ => .audited u.id
  | _ => .plain

/-- Modelled from the spec: RequestContext::check_if_match — compare the
object's current version against the precondition token carried by the
context, failing PreconditionFailed on mismatch; a context carrying no
precondition token passes (sections 3 and 4.3). -/
def check_if_match (data : RequestData) (version : Nat) : Except PointercrateError Unit :=
  match data with
  | .external _ (some t) => if t = version then .ok () else .error .preconditionFailed
  | _ => .ok ()

/-- The Basic branch of Handler<Auth<T>> (database.rs lines 158-174): look
the user up by username, collapsing any lookup failure to Unauthorized, then
verify the password; a credential that is not Basic-shaped fails
Unauthorized. -/
def handle_auth_basic (db : Database) (auth : Authorization) : Except PointercrateError Me :=
  match auth with
  | .basic username password =>
    match getByName db username with
    | .error _ => .error .unauthorized
    | .ok user => (user.verify_password password).map Me.mk
  | _ => .error .unauthorized

/-- The Token branch of Handler<Auth<T>> (database.rs lines 175-212): decode
the token without verification keeping only the claimed id, look the user up
by that id (collapsing lookup failure to Unauthorized), verify the token
against the user's current salt, then check the supplied CSRF value if one
was supplied; a credential that is not Token-shaped fails Unauthorized. -/
def handle_auth_token (db : Database) (auth : Authorization) (now : Nat) : Except PointercrateError Me :=
  match auth with
  | .token access_token csrf_token =>
    match decode_unverified access_token with
    | none => .error .unauthorized
    | some claims =>
      match getById db claims.id with
      | .error _ => .error .unauthorized
      | .ok user =>
        match user.validate_token access_token now with
        | .error e => .error e
        | .ok user =>
          match csrf_token with
          | some c => (validate_csrf_token access_token c).map (fun _ => Me.mk user)
          | none => .ok (Me.mk user)
  | _ => .error .unauthorized

/-- Handler<Auth<T>> (database.rs lines 151-215): dispatch on the
authentication mode selected by the phantom type. -/
def handle_auth (db : Database) (ty : AuthType) (auth : Authorization) (now : Nat) :
    Except PointercrateError Me :=
  match ty with
  | .basic => handle_auth_basic db auth
  | .token => handle_auth_token db auth now

/-- The PatchMe diff from database.rs lines 240-244: an optional new
password, display name and youtube channel. -/
structure PatchMe where
  password : Option String
  display_name : Option String
  youtube_channel : Option String
  deriving DecidableEq, Repr

/-- Modelled from the spec: applying a PatchMe to an identity.  Setting the
password field re-hashes the (possibly unchanged) password with a freshly
randomized salt (section 4.6); the fresh salt is passed explicitly to keep
the model deterministic. -/
def User.applyPatchMe (u : User) (p : PatchMe) (newSalt : Nat) : User :=
  let u1 := match p.password with
    | some pw => { u with password := pw, salt := newSalt }
    | none => u
  let u2 := match p.display_name with
    | some d => { u1 with displayName := some d }
    | none => u1
  match p.youtube_channel with
  | some y => { u2 with youtubeChannel := some y }
  | none => u2

/-- Modelled from the spec: the version marker (If-Match hash) of an
identity record, an opaque function of the record's current state. -/
def userVersion (u : User) : Nat :=
  u.salt

/-- Replace the user record with matching id in the identity store. -/
def updateUser (db : Database) (v : User) : Database :=
  db.map (fun u => if u.id = v.id then v else u)

/-- Modelled from the spec: the PatchMessage handler instantiated at an
identity patching itself (the Get and Patch capability implementations for
Me are not under src/).  Inside one transaction: re-fetch the identity,
check the context's precondition token, then apply the patch.  The
connection acquired for the request is returned alongside the new store
state so that audit attribution is observable. -/
def handle_patch_me (db : Database) (me : User) (patch : PatchMe) (data : RequestData)
    (newSalt : Nat) : Except PointercrateError (Database × Conn) :=
  let conn := connection_for data
  match getById db me.id with
  | .error e => .error e
  | .ok current =>
    match check_if_match data (userVersion current) with
    | .error e => .error e
    | .ok _ =>
      let patched := current.applyPatchMe patch newSalt
      .ok (updateUser db patched, conn)

/-- Handler<Invalidate> (database.rs lines 233-257): for a Basic credential,
authenticate it, then patch the authenticated user's own password with the
same password under RequestData::Internal; any other credential shape fails
Unauthorized immediately.  The fresh salt the patch randomizes to is passed
explicitly; the pair returned on success is the new store state and the
connection the inner patch ran on (which the Rust code discards with
`map(|_| ())`). -/
def handle_invalidate (db : Database) (auth : Authorization) (newSalt : Nat) :
    Except PointercrateError (Database × Conn) :=
  match auth with
  | .basic username password =>
    match handle_auth_basic db (.basic username password) with
    | .error e => .error e
    | .ok me =>
      let patch : PatchMe :=
        { password := some password, display_name := none, youtube_channel := none }
      handle_patch_me db me.user patch .internal newSalt
  | _ => .error .unauthorized

/-- Run Invalidate with rollback semantics: on any error the store state is
unchanged. -/
def runInvalidate (db : Database) (auth : Authorization) (newSalt : Nat) :
    Database × Except PointercrateError Unit :=
  match handle_invalidate db auth newSalt with
  | .ok (db2, _) => (db2, .ok ())
  | .error e => (db, .error e)

/-- A stored generic resource: a version marker (the value the precondition
token is compared against) and a payload. -/
structure Obj where
  version : Nat
  value : Nat
  deriving DecidableEq, Repr

/-- A generic keyed resource table. -/
abbrev Store := List (Nat × Obj)

/-- Point lookup in a resource table. -/
def Store.lookup (s : Store) (k : Nat) : Option Obj :=
  (s.find? (fun e => e.1 == k)).map Prod.snd

/-- Modelled from the spec: the Get capability (section 4.3) — point lookup
failing NotFound when the key is absent. -/
def Store.getObj (s : Store) (k : Nat) : Except PointercrateError Obj :=
  match s.lookup k with
  | some o => .ok o
  | none => .error .notFound

/-- Modelled from the spec: the resource collaborator applies the diff
(section 4.3); modelled as replacing the payload and advancing the version
marker. -/
def Obj.applyDiff (o : Obj) (d : Nat) : Obj :=
  { version := o.version + 1, value := d }

/-- Write the object stored under a key. -/
def Store.writeObj (s : Store) (k : Nat) (o : Obj) : Store :=
  s.map (fun e => if e.1 = k then (k, o) else e)

/-- Modelled from the spec: the Delete capability removes the object
(section 4.3). -/
def Store.deleteObj (s : Store) (k : Nat) : Store :=
  s.filter (fun e => !(e.1 == k))

/-- Handler<PatchMessage> (database.rs lines 454-475): inside one
transaction, fetch the current object by key, check the context's
precondition token against it, then apply the diff. -/
def handle_patch (s : Store) (k : Nat) (d : Nat) (data : RequestData) :
    Except PointercrateError (Store × Obj) :=
  match s.getObj k with
  | .error e => .error e
  | .ok obj =>
    match check_if_match data obj.version with
    | .error e => .error e
    | .ok _ =>
      let newObj := obj.applyDiff d
      .ok (s.writeObj k newObj, newObj)

/-- Run a Patch with the transaction's rollback semantics: on any error the
stored state is unchanged. -/
def runPatch (s : Store) (k : Nat) (d : Nat) (data : RequestData) :
    Store × Except PointercrateError Obj :=
  match handle_patch s k d data with
  | .ok (s2, o) => (s2, .ok o)
  | .error e => (s, .error e)

/-- Handler<DeleteMessage> (database.rs lines 417-431): inside one
transaction, fetch the object by key (NotFound if absent), then delete
it. -/
def handle_delete (s : Store) (k : Nat) (data : RequestData) :
    Except PointercrateError Store :=
  match s.getObj k with
  | .error e => .error e
  | .ok _ => .ok (s.deleteObj k)

/-- Handler<PaginateMessage> (database.rs lines 540-581), with the loaded
page and the four anchor queries (Paginator::first/last/next/prev, not under
src/) supplied as inputs and the URL-query-encoding serializer
(serde_urlencoded, an external collaborator) as a parameter: render each
present anchor as a navigation entry and join the present entries with
commas in the order first, next, prev, last. -/
def handle_paginate (base : String) (ser : Nat → String)
    (first last next prev : Option Nat) (result : List Nat) : List Nat × String :=
  let f := first.map (fun d => "<" ++ base ++ "?" ++ ser d ++ ">; rel=first")
  let l := last.map (fun d => "<" ++ base ++ "?" ++ ser d ++ ">; rel=last")
  let n := next.map (fun d => "<" ++ base ++ "?" ++ ser d ++ ">; rel=next")
  let p := prev.map (fun d => "<" ++ base ++ "?" ++ ser d ++ ">; rel=prev")
  let header := String.intercalate "," (([f, n, p, l].filterMap id))
  (result, header)

/-- The navigation entry exactly as the spec words it (section 4.4 step 3):
`<base-identifier?serialized-anchor>; rel=<relation>`. -/
def specNavEntry (base : String) (ser : Nat → String) (rel : String) (anchor : Nat) : String :=
  "<" ++ base ++ "?" ++ ser anchor ++ ">; rel=" ++ rel

/-- The navigation header exactly as the spec words it (section 4.4 step 4):
entries of the present anchors, in the order first, next, prev, last, joined
with commas; absent anchors contribute no entry. -/
def specNavHeader (base : String) (ser : Nat → String)
    (first next prev last : Option Nat) : String :=
  String.intercalate ","
    (([("first", first), ("next", next), ("prev", prev), ("last", last)].filterMap
      (fun rp => rp.2.map (specNavEntry base ser rp.1))))

/-- The case-insensitive string wrapper from src/cistring.rs; the single
field is the underlying String. -/
structure CiString where
  str : String
  deriving DecidableEq, Repr

/-- The PartialEq impl for CiString (cistring.rs lines 52-58): equality of
the lowercased forms of the underlying strings (Rust String::to_lowercase is
modelled characterwise by Char.toLower, with which it agrees on ASCII). -/
def CiString.ciEq (a b : CiString) : Bool :=
  a.str.data.map Char.toLower == b.str.data.map Char.toLower

/-- The derived Hash impl for CiString (cistring.rs line 14): it feeds the
underlying string's character data to the hasher unchanged (no lowercasing).
Modelled as the stream of data fed to the hasher: two values are guaranteed
equal hashes under every hasher only when these streams are equal. -/
def CiString.hashStream (a : CiString) : List Char :=
  a.str.data

/-- A concrete identity used by the concrete-input theorems. -/
def aliceU : User :=
  { id := 1, username := "alice", password := "hunter2", salt := 42,
    displayName := none, youtubeChannel := none }

/-- A one-identity store holding `aliceU`. -/
def dbA : Database := [aliceU]

/-- The store `dbA` after alice's salt has been rotated to 43. -/
def dbA2 : Database := [{ aliceU with salt := 43 }]

theorem rel_first_lit : (">; rel=" ++ "first" : String) = ">; rel=first" := rfl

theorem rel_next_lit : (">; rel=" ++ "next" : String) = ">; rel=next" := rfl

theorem rel_prev_lit : (">; rel=" ++ "prev" : String) = ">; rel=prev" := rfl

theorem rel_last_lit : (">; rel=" ++ "last" : String) = ">; rel=last" := rfl

/-- Deleting a key removes it: a lookup of the same key in the deleted store
finds nothing. -/
theorem lookup_deleteObj (s : Store) (k : Nat) :
    Store.lookup (Store.deleteObj s k) k = none := by
  have h : (Store.deleteObj s k).find? (fun e => e.1 == k) = none := by
    rw [List.find?_eq_none]
    intro x hx
    have hm := List.mem_filter.mp hx
    simpa using hm.2
  simp [Store.lookup, h]

/-- C1: Basic authentication succeeds exactly when the username resolves to
a stored identity whose stored password hash verifies the supplied password,
and every failure — unknown username and wrong password alike — is the
identical Unauthorized error kind. -/
theorem c1_basic_auth (db : Database) (username password : String) :
    ((∃ m, handle_auth_basic db (.basic username password) = .ok m)
      ↔ (∃ u, getByName db username = .ok u ∧ u.password = password))
    ∧ (∀ e, handle_auth_basic db (.basic username password) = .error e →
        e = PointercrateError.unauthorized) := by
  cases hfind : getByName db username with
  | error err =>
    refine ⟨?_, ?_⟩
    · simp [handle_auth_basic, hfind]
    · intro e he
      simp [handle_auth_basic, hfind] at he
      exact he.symm
  | ok u =>
    by_cases hpw : u.password = password
    · refine ⟨⟨fun _ => ⟨u, rfl, hpw⟩, fun _ => ⟨Me.mk u, ?_⟩⟩, ?_⟩
      · simp [handle_auth_basic, hfind, User.verify_password, hpw, Except.map]
      · intro e he
        simp [handle_auth_basic, hfind, User.verify_password, hpw, Except.map] at he
    · refine ⟨⟨?_, ?_⟩, ?_⟩
      · rintro ⟨m, hm⟩
        simp [handle_auth_basic, hfind, User.verify_password, hpw, Except.map] at hm
      · rintro ⟨u2, hu2, hpw2⟩
        cases hu2
        exact absurd hpw2 hpw
      · intro e he
        simp [handle_auth_basic, hfind, User.verify_password, hpw, Except.map] at he
        exact he.symm

/-- C1 witness: the property instantiated at the one-identity store. -/
theorem c1_basic_auth_witness :
    ((∃ m, handle_auth_basic dbA (.basic "alice" "hunter2") = .ok m)
      ↔ (∃ u, getByName dbA "alice" = .ok u ∧ u.password = "hunter2"))
    ∧ (∀ e, handle_auth_basic dbA (.basic "alice" "hunter2") = .error e →
        e = PointercrateError.unauthorized) :=
  c1_basic_auth dbA "alice" "hunter2"

/-- C3: a Patch on an existing object is one check-then-mutate transaction:
when the precondition token carried by the external context differs from the
object's current version it fails PreconditionFailed and the stored state is
exactly the state before the call (rollback); when the token matches, the
diff is applied and committed. -/
theorem c3_patch_precondition (s : Store) (k d vb : Nat) (u : Option User) (obj : Obj)
    (h : Store.lookup s k = some obj) :
    (vb ≠ obj.version →
      runPatch s k d (.external u (some vb)) = (s, .error .preconditionFailed))
    ∧ (vb = obj.version →
      runPatch s k d (.external u (some vb)) =
        (Store.writeObj s k (obj.applyDiff d), .ok (obj.applyDiff d))) := by
  constructor
  · intro hne
    simp [runPatch, handle_patch, Store.getObj, h, check_if_match, hne]
  · intro heq
    simp [runPatch, handle_patch, Store.getObj, h, check_if_match, heq]

/-- C3 witness: on a one-object store at version 0, precondition 1 fails
with PreconditionFailed and leaves the store unchanged. -/
theorem c3_patch_precondition_witness :
    runPatch [(1, Obj.mk 0 5)] 1 9 (.external none (some 1)) =
      ([(1, Obj.mk 0 5)], .error .preconditionFailed) :=
  (c3_patch_precondition [(1, Obj.mk 0 5)] 1 9 1 none (Obj.mk 0 5) rfl).1 (by decide)

/-- C7: Delete is one fetch-then-delete transaction: an absent key fails
NotFound, a present key is removed, and a success certifies that the object
existed at the transaction's own check — in particular a second Delete of
the same key against the resulting store observes NotFound. -/
theorem c7_delete (s : Store) (k : Nat) (data : RequestData) :
    (Store.lookup s k = none → handle_delete s k data = .error .notFound)
    ∧ (∀ obj, Store.lookup s k = some obj →
        handle_delete s k data = .ok (Store.deleteObj s k))
    ∧ (∀ s2, handle_delete s k data = .ok s2 →
        (∃ obj, Store.lookup s k = some obj) ∧ s2 = Store.deleteObj s k
          ∧ handle_delete s2 k data = .error .notFound) := by
  refine ⟨?_, ?_, ?_⟩
  · intro h; simp [handle_delete, Store.getObj, h]
  · intro obj h; simp [handle_delete, Store.getObj, h]
  · intro s2 h
    cases hl : Store.lookup s k with
    | none => simp [handle_delete, Store.getObj, hl] at h
    | some obj =>
      simp [handle_delete, Store.getObj, hl] at h
      refine ⟨⟨obj, rfl⟩, h.symm, ?_⟩
      rw [← h]
      simp [handle_delete, Store.getObj, lookup_deleteObj]

/-- C7 witness: deleting key 1 from a one-object store succeeds, and the
success certifies existence and that a second delete fails NotFound. -/
theorem c7_delete_witness :
    (∃ obj, Store.lookup [(1, Obj.mk 0 5)] 1 = some obj)
    ∧ ([] : Store) = Store.deleteObj [(1, Obj.mk 0 5)] 1
    ∧ handle_delete ([] : Store) 1 .internal = .error .notFound :=
  (c7_delete [(1, Obj.mk 0 5)] 1 .internal).2.2 [] rfl

/-- C8: the paginate handler returns the loaded page together with the
navigation header exactly as the spec describes it: each present anchor
rendered as the entry the spec's grammar gives, absent anchors contributing
no entry, and present entries comma-joined in the order first, next, prev,
last. -/
theorem c8_pagination_header (base : String) (ser : Nat → String)
    (first last next prev : Option Nat) (result : List Nat) :
    handle_paginate base ser first last next prev result =
      (result, specNavHeader base ser first next prev last) := by
  cases first <;> cases last <;> cases next <;> cases prev <;>
    simp [handle_paginate, specNavHeader, specNavEntry, String.append_assoc,
      rel_first_lit, rel_next_lit, rel_prev_lit, rel_last_lit]

/-- C9: the CiString values "A" and "a" are equal under the case-insensitive
PartialEq impl, yet the derived Hash impl feeds the hasher different data
for them — the Hash/Eq consistency the claim asserts fails on the code. -/
theorem c9_hash_eq_violation :
    CiString.ciEq ⟨"A"⟩ ⟨"a"⟩ = true
    ∧ CiString.hashStream ⟨"A"⟩ ≠ CiString.hashStream ⟨"a"⟩ := by
  refine ⟨by decide, by decide⟩

/-- C10: Invalidate with any credential that is not Basic-shaped fails
immediately with Unauthorized and leaves the identity store untouched. -/
theorem c10_invalidate_requires_basic (db : Database) (tok : AccessToken)
    (csrf : Option String) (ns : Nat) :
    handle_invalidate db (.token tok csrf) ns = .error .unauthorized
    ∧ runInvalidate db (.token tok csrf) ns = (db, .error .unauthorized) :=
  ⟨rfl, rfl⟩

/-- Updating the user with a given id leaves the first match of a lookup by
that id at the updated record. -/
theorem find?_id_update (l : List User) (i : Nat) (u v : User)
    (hv : v.id = i) (h : l.find? (fun x => x.id == i) = some u) :
    (l.map (fun x => if x.id = v.id then v else x)).find? (fun x => x.id == i) = some v := by
  induction l with
  | nil => simp at h
  | cons a t ih =>
    by_cases ha : a.id = i
    · have hav : a.id = v.id := ha.trans hv.symm
      simp [List.find?_cons, hav, hv]
    · have hav : ¬a.id = v.id := fun hc => ha (hc.trans hv)
      rw [List.find?_cons_of_neg t (by simp [ha])] at h
      simp only [List.map_cons, if_neg hav]
      rw [List.find?_cons_of_neg _ (by simp [ha])]
      exact ih h

/-- C5: token authentication is two-phase: the unverified decode recovers
the claims whatever the signature is; a malformed token, an identity id that
resolves to no identity, and a signature or expiry that fails against the
key derived from the resolved identity's current salt each yield
Unauthorized; and a token verifying against the current salt with a live
expiry authenticates the identity looked up by the decoded id. -/
theorem c5_token_two_phase (db : Database) (now : Nat) :
    (∀ c sig, decode_unverified (.signed c sig) = some c)
    ∧ (∀ csrf, handle_auth_token db (.token .malformed csrf) now = .error .unauthorized)
    ∧ (∀ c sig csrf, getById db c.id = .error .notFound →
        handle_auth_token db (.token (.signed c sig) csrf) now = .error .unauthorized)
    ∧ (∀ c sig u csrf, getById db c.id = .ok u → ¬(sig = tokenKey u.salt ∧ now < c.exp) →
        handle_auth_token db (.token (.signed c sig) csrf) now = .error .unauthorized)
    ∧ (∀ c sig u, getById db c.id = .ok u → sig = tokenKey u.salt → now < c.exp →
        handle_auth_token db (.token (.signed c sig) none) now = .ok (Me.mk u)) := by
  refine ⟨fun c sig => rfl, fun csrf => rfl, ?_, ?_, ?_⟩
  · intro c sig csrf h
    simp [handle_auth_token, decode_unverified, h]
  · intro c sig u csrf h hv
    simp [handle_auth_token, decode_unverified, h, User.validate_token, hv]
  · intro c sig u h hsig hexp
    simp [handle_auth_token, decode_unverified, h, User.validate_token, hsig, hexp]

/-- C5 witness: the five parts at concrete inputs over the one-identity
store: unverified decode ignores the signature 999; a malformed token, the
unknown id 7, and a wrong signature 7 each fail Unauthorized; the correctly
signed unexpired token authenticates alice. -/
theorem c5_token_two_phase_witness :
    decode_unverified (.signed ⟨1, none, 100⟩ 999) = some ⟨1, none, 100⟩
    ∧ handle_auth_token dbA (.token .malformed none) 0 = .error .unauthorized
    ∧ handle_auth_token dbA (.token (.signed ⟨7, none, 100⟩ 42) none) 0 = .error .unauthorized
    ∧ handle_auth_token dbA (.token (.signed ⟨1, none, 100⟩ 7) none) 0 = .error .unauthorized
    ∧ handle_auth_token dbA (.token (.signed ⟨1, none, 100⟩ 42) none) 0 = .ok (Me.mk aliceU) :=
  ⟨(c5_token_two_phase dbA 0).1 ⟨1, none, 100⟩ 999,
   (c5_token_two_phase dbA 0).2.1 none,
   (c5_token_two_phase dbA 0).2.2.1 ⟨7, none, 100⟩ 42 none rfl,
   (c5_token_two_phase dbA 0).2.2.2.1 ⟨1, none, 100⟩ 7 aliceU none rfl (by decide),
   (c5_token_two_phase dbA 0).2.2.2.2 ⟨1, none, 100⟩ 42 aliceU rfl rfl (by decide)⟩

/-- C6: for a valid unexpired token whose claims embed CSRF value `v`, the
request is accepted when the caller supplies exactly `v`, rejected with
Unauthorized when the caller supplies any other value, and accepted when the
caller supplies no CSRF value at all. -/
theorem c6_csrf_binding (db : Database) (u : User) (c : Claims) (v : String) (now : Nat)
    (hid : getById db c.id = .ok u)
    (hcsrf : c.csrf = some v)
    (hexp : now < c.exp) :
    (handle_auth_token db (.token (sign_token c u.salt) (some v)) now = .ok (Me.mk u))
    ∧ (∀ w, w ≠ v →
        handle_auth_token db (.token (sign_token c u.salt) (some w)) now
          = .error .unauthorized)
    ∧ (handle_auth_token db (.token (sign_token c u.salt) none) now = .ok (Me.mk u)) := by
  refine ⟨?_, ?_, ?_⟩
  · simp [handle_auth_token, sign_token, decode_unverified, hid, User.validate_token,
      hexp, validate_csrf_token, hcsrf, Except.map]
  · intro w hw
    have hvw : ¬v = w := fun hc => hw hc.symm
    simp [handle_auth_token, sign_token, decode_unverified, hid, User.validate_token,
      hexp, validate_csrf_token, hcsrf, hvw, Except.map]
  · simp [handle_auth_token, sign_token, decode_unverified, hid, User.validate_token, hexp]

/-- C6 witness: over the one-identity store, a token embedding CSRF value
"V" is accepted with supplied value "V", rejected with supplied value "W",
and accepted with no supplied value. -/
theorem c6_csrf_binding_witness :
    (handle_auth_token dbA (.token (sign_token ⟨1, some "V", 100⟩ aliceU.salt) (some "V")) 0
        = .ok (Me.mk aliceU))
    ∧ (handle_auth_token dbA (.token (sign_token ⟨1, some "V", 100⟩ aliceU.salt) (some "W")) 0
        = .error .unauthorized)
    ∧ (handle_auth_token dbA (.token (sign_token ⟨1, some "V", 100⟩ aliceU.salt) none) 0
        = .ok (Me.mk aliceU)) :=
  ⟨(c6_csrf_binding dbA aliceU ⟨1, some "V", 100⟩ "V" 0 rfl rfl (by decide)).1,
   (c6_csrf_binding dbA aliceU ⟨1, some "V", 100⟩ "V" 0 rfl rfl (by decide)).2.1 "W" (by decide),
   (c6_csrf_binding dbA aliceU ⟨1, some "V", 100⟩ "V" 0 rfl rfl (by decide)).2.2⟩

/-- C2: a token signed under an identity's salt verifies while that salt is
current, and after Invalidate authenticates the identity's Basic credential
and re-patches the same password under a freshly randomized salt, the same
token fails with Unauthorized — no revocation list is involved, the
verification key is simply re-derived from the current salt. -/
theorem c2_token_invalidation (db : Database) (u : User) (c : Claims) (now newSalt : Nat)
    (hname : getByName db u.username = .ok u)
    (hid : getById db u.id = .ok u)
    (hcid : c.id = u.id)
    (hexp : now < c.exp)
    (hfresh : newSalt ≠ u.salt) :
    (handle_auth_token db (.token (sign_token c u.salt) none) now = .ok (Me.mk u))
    ∧ (∃ db2, handle_invalidate db (.basic u.username u.password) newSalt
        = .ok (db2, Conn.plain)
      ∧ handle_auth_token db2 (.token (sign_token c u.salt) none) now
          = .error .unauthorized) := by
  have hfind : db.find? (fun x => x.id == u.id) = some u := by
    unfold getById at hid
    cases hf : db.find? (fun x => x.id == u.id) with
    | none => rw [hf] at hid; cases hid
    | some w => rw [hf] at hid; cases hid; rfl
  refine ⟨?_, ?_⟩
  · simp [handle_auth_token, sign_token, decode_unverified, hcid, hid,
      User.validate_token, hexp]
  · set patched := u.applyPatchMe
      { password := some u.password, display_name := none, youtube_channel := none }
      newSalt with hpatched
    have hpid : patched.id = u.id := rfl
    have hpsalt : patched.salt = newSalt := rfl
    refine ⟨updateUser db patched, ?_, ?_⟩
    · simp [handle_invalidate, handle_auth_basic, hname, User.verify_password,
        Except.map, handle_patch_me, hid, check_if_match, connection_for, hpatched]
    · have hfind2 : (updateUser db patched).find? (fun x => x.id == u.id) = some patched :=
        find?_id_update db u.id u patched hpid hfind
      have hget2 : getById (updateUser db patched) c.id = .ok patched := by
        rw [hcid]; unfold getById; rw [hfind2]
      have hne : ¬(tokenKey u.salt = tokenKey patched.salt ∧ now < c.exp) := by
        intro hc
        exact hfresh (hpsalt ▸ hc.1.symm)
      simp [handle_auth_token, sign_token, decode_unverified, hget2,
        User.validate_token, hne]

/-- C2 witness: alice's token signed under salt 42 verifies against the
one-identity store; invalidating with her Basic credential and fresh salt 43
succeeds, and the same token then fails Unauthorized. -/
theorem c2_token_invalidation_witness :
    (handle_auth_token dbA (.token (sign_token ⟨1, none, 100⟩ aliceU.salt) none) 0
        = .ok (Me.mk aliceU))
    ∧ (∃ db2, handle_invalidate dbA (.basic aliceU.username aliceU.password) 43
        = .ok (db2, Conn.plain)
      ∧ handle_auth_token db2 (.token (sign_token ⟨1, none, 100⟩ aliceU.salt) none) 0
          = .error .unauthorized) :=
  c2_token_invalidation dbA aliceU ⟨1, none, 100⟩ 0 43 rfl rfl rfl (by decide) (by decide)

/-- C4 counterexample: running Invalidate with alice's Basic credential
succeeds — so the patch it performs acts on behalf of the authenticated
acting identity alice — yet the connection that patch ran on is the plain
one, which is no audit-tagged connection at all; the claim that this
mutating operation is performed on an audit-tagged connection attributed to
the acting identity is false at this input. -/
theorem c4_counterexample :
    handle_invalidate dbA (.basic "alice" "hunter2") 43 = .ok (dbA2, Conn.plain)
    ∧ ∀ i, Conn.plain ≠ Conn.audited i :=
  ⟨rfl, fun _ h => nomatch h⟩

/-- C4 amended: connection_for audit-tags exactly when the request data is
External and carries an authenticated identity, otherwise hands out a plain
connection; the patch performed by Invalidate, however, always runs with
Internal request data and therefore on a plain, un-audited connection. -/
theorem c4_audit_connection (db : Database) :
    (∀ u m, connection_for (.external (some u) m) = .audited u.id)
    ∧ (∀ m, connection_for (.external none m) = .plain)
    ∧ connection_for .internal = .plain
    ∧ (∀ un pw ns r, handle_invalidate db (.basic un pw) ns = .ok r →
        r.2 = Conn.plain) := by
  refine ⟨fun u m => rfl, fun m => rfl, rfl, ?_⟩
  intro un pw ns r h
  simp only [handle_invalidate] at h
  cases hauth : handle_auth_basic db (.basic un pw) with
  | error e => rw [hauth] at h; simp at h
  | ok me =>
    rw [hauth] at h
    simp only [handle_patch_me] at h
    cases hget : getById db me.user.id with
    | error e => rw [hget] at h; simp at h
    | ok current =>
      rw [hget] at h
      simp only [check_if_match] at h
      injection h with h2
      rw [← h2]
      rfl

/-- C4 amended witness: an External context carrying alice yields the
connection audited as alice, and the successful concrete Invalidate run of
the counterexample input indeed used the plain connection. -/
theorem c4_audit_connection_witness :
    connection_for (.external (some aliceU) none) = .audited aliceU.id
    ∧ ((dbA2, Conn.plain) : Database × Conn).2 = Conn.plain :=
  ⟨(c4_audit_connection dbA).1 aliceU none,
   (c4_audit_connection dbA).2.2.2 "alice" "hunter2" 43 (dbA2, Conn.plain) rfl⟩
